import Mathlib

/-!
Verification of the cogeotiff COG reader core against its specification.

Two layers are embedded:
* a byte-level model of `CogLayer` from `src/src/index.ts` (`fetchHeader`,
  `processIfd`, `readIfd`, `getTileRaw`), operating on a byte source;
* a tag-map model of the two `CogTifImage` variants
  (`src/unnamed/part_000` with a facade back-reference and throwing
  accessors, `src/unnamed/part_001` standalone with null-returning
  accessors).

The repository's `CogSource` and `read/tif` modules (typed reads, the tag
and compression tables) are not under `src/`; those pieces are modelled
from the spec (sections 4.A, 4.B and 6) and carry a
`Modelled from the spec:` doc comment.
-/

namespace Cog

/-- Modelled from the spec: the byte source (spec 4.A). `data` is the byte
content of the backing store; `resident off len` models
`hasBytes(offset, length)` (all covering chunks ready) and `residentAt off`
models the one-argument `hasBytes(offset)`. `CogSource` itself is not under
`src/`. -/
structure Source where
  data : List Nat
  residentAt : Nat → Bool
  resident : Nat → Nat → Bool

/-- Read one byte; out-of-range reads fail (spec 4.A, `OffsetOutOfRange` /
`ShortRead`). -/
def byteAt (s : Source) (i : Nat) : Except String Nat :=
  match s.data[i]? with
  | some b => Except.ok b
  | none => Except.error "read out of range"

/-- Little-endian unsigned integer of `sz` bytes at `off`.
Modelled from the spec: typed reads honour the captured byte order (4.B);
only the little-endian profile is supported. -/
def readUN (s : Source) (off sz : Nat) : Except String Nat := do
  let bytes ← (List.range sz).mapM (fun i => byteAt s (off + i))
  pure (bytes.foldr (fun b acc => b + 256 * acc) 0)

/-- `source.uint16(offset)`. -/
def uint16 (s : Source) (off : Nat) : Except String Nat := readUN s off 2

/-- `source.uint32(offset)`. -/
def uint32 (s : Source) (off : Nat) : Except String Nat := readUN s off 4

/-- Modelled from the spec: `TIFF_SIZE` (spec section 3, Tag Type): the
byte size of each TIFF type code; `none` for an unknown code. -/
def TIFF_SIZE : Nat → Option Nat
  | 1 => some 1   -- byte
  | 2 => some 1   -- ascii
  | 3 => some 2   -- short
  | 4 => some 4   -- long
  | 5 => some 8   -- rational
  | 6 => some 1   -- sbyte
  | 7 => some 1   -- undefined
  | 8 => some 2   -- sshort
  | 9 => some 4   -- slong
  | 10 => some 8  -- srational
  | 11 => some 4  -- float
  | 12 => some 8  -- double
  | _ => none

/-- Modelled from the spec: `TIFF_TAG` (spec section 6, supported tags).
True iff the tag code has a name in the registry; `readIfd` skips entries
whose code is unknown. -/
def knownTag (code : Nat) : Bool :=
  code = 256 ∨ code = 257 ∨ code = 258 ∨ code = 259 ∨ code = 262 ∨
  code = 277 ∨ code = 322 ∨ code = 323 ∨ code = 324 ∨ code = 325 ∨
  code = 339 ∨ code = 33550 ∨ code = 33922 ∨ code = 34735 ∨
  code = 34736 ∨ code = 34737

/-- A decoded tag value: a `count == 1` read collapses to a scalar, other
integer reads give an array. Non-integer types (ascii, rationals, floats)
are kept as their raw bytes; no claim exercises their element decoding. -/
inductive TagData where
  | scalar (n : Nat)
  | arr (l : List Nat)
  | raw (l : List Nat)
deriving DecidableEq

/-- A stored tag: either an eagerly decoded value or the lazy closure
`() => source.readType(valueOffset, type, count)` stored by `readIfd` when
the value bytes are not resident (index.ts line 196). -/
inductive TagVal where
  | eager (d : TagData)
  | lazy (off ty count : Nat)
deriving DecidableEq

/-- The in-memory image of one IFD: tag code to stored value, newest
assignment first (JS object assignment overwrites). -/
abbrev Image := List (Nat × TagVal)

/-- JS property write `image[tag] = v`. -/
def setTag (img : Image) (c : Nat) (v : TagVal) : Image :=
  (c, v) :: img.filter (fun p => p.1 ≠ c)

/-- JS property read `image[tag]` (`none` is JS `undefined`). -/
def getTag (img : Image) (c : Nat) : Option TagVal :=
  (img.find? (fun p => p.1 = c)).map (fun p => p.2)

/-- Modelled from the spec: `source.readType(offset, type, count)`
(spec 4.B). Integer types 1 (byte), 3 (short) and 4 (long) decode
little-endian and collapse to a scalar when `count == 1`; other known
types return their raw value bytes. -/
def readType (s : Source) (off ty count : Nat) : Except String TagData := do
  match TIFF_SIZE ty with
  | none => Except.error "unknown tag type"
  | some sz =>
    if ty = 1 ∨ ty = 3 ∨ ty = 4 then do
      let elems ← (List.range count).mapM (fun i => readUN s (off + i * sz) sz)
      match count, elems with
      | 1, [x] => pure (TagData.scalar x)
      | _, _ => pure (TagData.arr elems)
    else do
      let bytes ← (List.range (count * sz)).mapM (fun i => byteAt s (off + i))
      pure (TagData.raw bytes)

/-- One iteration of the `readIfd` tag loop (index.ts lines 171-202) at
entry index `i` of the IFD at `offset`: `none` means the entry was skipped
(unknown tag code). An unknown tag *type* makes `TIFF_SIZE[tagType].length`
a property access on `undefined`, a TypeError. Each awaited read may fail
and then rejects the whole call. -/
def parseEntry (s : Source) (offset i : Nat) :
    Except String (Option (Nat × TagVal)) :=
  match uint16 s (offset + 2 + 12 * i) with
  | Except.error e => Except.error e
  | Except.ok tagCode =>
    if knownTag tagCode then
      match uint16 s (offset + 2 + 12 * i + 2) with
      | Except.error e => Except.error e
      | Except.ok tagType =>
        match TIFF_SIZE tagType with
        | none => Except.error "TypeError: cannot read length of undefined"
        | some typeSize =>
          match uint32 s (offset + 2 + 12 * i + 4) with
          | Except.error e => Except.error e
          | Except.ok count =>
            if count * typeSize ≤ 4 then
              match readType s (offset + 2 + 12 * i + 8) tagType count with
              | Except.error e => Except.error e
              | Except.ok v => Except.ok (some (tagCode, TagVal.eager v))
            else
              match uint32 s (offset + 2 + 12 * i + 8) with
              | Except.error e => Except.error e
              | Except.ok valueOffset =>
                if s.resident valueOffset (count * typeSize) then
                  match readType s valueOffset tagType count with
                  | Except.error e => Except.error e
                  | Except.ok v => Except.ok (some (tagCode, TagVal.eager v))
                else
                  Except.ok
                    (some (tagCode, TagVal.lazy valueOffset tagType count))
    else
      Except.ok none

/-- The entries produced by the first `n` iterations of the tag loop, in
loop order. -/
def parseEntries (s : Source) (offset : Nat) :
    Nat → Except String (List (Option (Nat × TagVal)))
  | 0 => Except.ok []
  | n + 1 =>
    match parseEntries s offset n with
    | Except.error e => Except.error e
    | Except.ok es =>
      match parseEntry s offset n with
      | Except.error e => Except.error e
      | Except.ok e => Except.ok (es ++ [e])

/-- Fold one loop iteration's result into the image (skipped entries write
nothing; a present entry is a JS property assignment). -/
def setTagOpt (img : Image) : Option (Nat × TagVal) → Image
  | none => img
  | some (c, v) => setTag img c v

/-- `CogLayer.readIfd` (index.ts lines 160-206): read the tag count, run the
tag loop, then read the next-IFD offset that follows the entries. -/
def readIfd (s : Source) (offset : Nat) : Except String (Image × Nat) :=
  match uint16 s offset with
  | Except.error e => Except.error e
  | Except.ok tagCount =>
    match parseEntries s offset tagCount with
    | Except.error e => Except.error e
    | Except.ok entries =>
      match uint32 s (offset + tagCount * 12 + 2) with
      | Except.error e => Except.error e
      | Except.ok nextOffset =>
        Except.ok (entries.foldl setTagOpt [], nextOffset)

/-- `CogLayer.processIfd` (index.ts lines 151-158), with explicit fuel: the
TS recursion does not terminate on a cyclic IFD chain, the model errors
instead; no claim exercises a cycle. -/
def processIfd (s : Source) : Nat → Nat → List Image → Except String (List Image)
  | 0, _, _ => Except.error "ifd chain too deep"
  | fuel + 1, offset, acc => do
    let (image, nextOffset) ← readIfd s offset
    let acc2 := acc ++ [image]
    if nextOffset ≠ 0 then processIfd s fuel nextOffset acc2 else pure acc2

/-- The facade state after `init()`. -/
structure LayerState where
  version : Nat
  isLittleEndian : Bool
  images : List Image
deriving DecidableEq

/-- `CogLayer.init` / `fetchHeader` (index.ts lines 101-130): byte-order
mark, version 42 check, first IFD offset, `hasBytes` check, IFD walk. -/
def init (s : Source) : Except String LayerState := do
  let endian ← uint16 s 0
  if endian ≠ 0x4949 then Except.error "Only little endian is supported" else do
  let version ← uint16 s 2
  if version = 43 then Except.error "Only tiff supported" else
  if version ≠ 42 then Except.error "Only tiff supported" else do
  let offset ← uint32 s 4
  if ¬ s.residentAt offset then Except.error "Offset out of range" else do
  let images ← processIfd s (s.data.length + 1) offset []
  pure { version := version, isLittleEndian := true, images := images }

/-- Modelled from the spec: `TIFF_COMPRESSION` (spec section 6, compression
to media-type table); `none` for an unknown code (a JS index miss). -/
def TIFF_COMPRESSION : Nat → Option String
  | 1 => some "none"
  | 5 => some "image/x-lzw"
  | 6 => some "image/jpeg"
  | 7 => some "image/jpeg"
  | 8 => some "image/deflate"
  | 34712 => some "image/jp2"
  | 50001 => some "image/webp"
  | _ => none

/-- JS `value.length`: arrays and raw buffers have a length, a number has
none (`undefined`), and the lazy closure `() => ...` has function arity 0. -/
def jsLen : TagVal → Option Nat
  | TagVal.eager (TagData.arr l) => some l.length
  | TagVal.eager (TagData.raw l) => some l.length
  | TagVal.eager (TagData.scalar _) => none
  | TagVal.lazy _ _ _ => some 0

/-- JS `value[i]`: array indexing; out of range, indexing a number, or
indexing the lazy closure gives `undefined`. -/
def jsIndex : TagVal → Nat → Option Nat
  | TagVal.eager (TagData.arr l), i => l[i]?
  | TagVal.eager (TagData.raw l), i => l[i]?
  | TagVal.eager (TagData.scalar _), _ => none
  | TagVal.lazy _ _ _, _ => none

/-- The stored tag viewed as a plain number (`none` when the property is
absent, lazy, or not a scalar). -/
def scalarTag (v : Option TagVal) : Option Nat :=
  match v with
  | some (TagVal.eager (TagData.scalar n)) => some n
  | _ => none

/-- The range read `getTileRaw` hands to `source.getBytes`: its media type,
the computed flat tile index (`none` models a NaN index), and the offset and
byte count actually read from the tag arrays (`none` models JS `undefined`).
By spec invariant 8.2 `getBytes(offset, count)` returns exactly `count`
bytes, so this request determines the returned payload. -/
structure TileReq where
  mimeType : Option String
  tileIdx : Option Nat
  tileOffset : Option Nat
  tileCount : Option Nat
deriving DecidableEq

/-- `CogLayer.getTileRaw` (index.ts lines 132-149). Faithful points: the
row stride is `nyTiles = ceil(ImageLength / TileLength)`; the only bounds
check is `idx > image.TileOffsets.length` (a comparison against `undefined`
or with a NaN index is false, hence no throw); a lazy `TileOffsets` closure
is indexed directly, never resolved. Arithmetic on a missing or lazy
`ImageLength`/`TileLength` (NaN in JS) is modelled as a `none` index. -/
def getTileRaw (st : LayerState) (x y z : Nat) : Except String TileReq :=
  match st.images[z]? with
  | none => Except.error "Missing z"
  | some image =>
    let mimeType := (scalarTag (getTag image 259)).bind TIFF_COMPRESSION
    let nyTiles : Option Nat :=
      match scalarTag (getTag image 257), scalarTag (getTag image 323) with
      | some len, some tl => if tl = 0 then none else some ((len + tl - 1) / tl)
      | _, _ => none
    let idx := nyTiles.map (fun ny => y * ny + x)
    match getTag image 324 with
    | none => Except.error "TypeError: cannot read length of undefined"
    | some offsTag =>
      let throwOut : Bool :=
        match idx, jsLen offsTag with
        | some i, some len => decide (i > len)
        | _, _ => false
      if throwOut then Except.error "Tile does not exist"
      else
        match getTag image 325 with
        | none => Except.error "TypeError: cannot index undefined"
        | some countsTag =>
          Except.ok
            { mimeType := mimeType
              tileIdx := idx
              tileOffset := idx.bind (jsIndex offsTag)
              tileCount := idx.bind (jsIndex countsTag) }

/-- The value a single loop entry contributes for tag code `c`. -/
def entryVal (e : Option (Nat × TagVal)) (c : Nat) : Option TagVal :=
  match e with
  | some (c2, v) => if c2 = c then some v else none
  | none => none

/-- The value of the *last* loop entry carrying code `c`, the one a chain
of JS property assignments leaves in place. -/
def lastVal : List (Option (Nat × TagVal)) → Nat → Option TagVal
  | [], _ => none
  | e :: t, c =>
    match lastVal t c with
    | some v => some v
    | none => entryVal e c

/-- The storage discipline `readIfd` applies to the tag stored as `(c, v)`
from entry `i` of the IFD at `offset` (claim C4): the entry's code is `c`
and is known; with its type, type size and count read from the entry, the
stored value is eager when `count * type_size ≤ 4` (inline value) or when
the value range was resident at parse time, and otherwise is the lazy
value carrying exactly `(value_offset, type, count)`. -/
def entryStored (s : Source) (offset i c : Nat) (v : TagVal) : Prop :=
  ∃ ty tsz count,
    uint16 s (offset + 2 + 12 * i) = Except.ok c ∧
    knownTag c = true ∧
    uint16 s (offset + 2 + 12 * i + 2) = Except.ok ty ∧
    TIFF_SIZE ty = some tsz ∧
    uint32 s (offset + 2 + 12 * i + 4) = Except.ok count ∧
    ((count * tsz ≤ 4 ∧ ∃ d, v = TagVal.eager d) ∨
     (4 < count * tsz ∧ ∃ voff,
        uint32 s (offset + 2 + 12 * i + 8) = Except.ok voff ∧
        ((s.resident voff (count * tsz) = true ∧ ∃ d, v = TagVal.eager d) ∨
         (s.resident voff (count * tsz) = false ∧
          v = TagVal.lazy voff ty count))))

end Cog

namespace CogImg

/-!
Tag-map model of the two `CogTifImage` variants. Accessors read resolved
tag values; geo values are rationals. `part_000` accessors throw
(`Except`), `part_001` accessors return null (`Option`).
-/

/-- A resolved tag value as the image accessors see it: a number or an
array of numbers. -/
inductive TagV where
  | num (q : ℚ)
  | arr (l : List ℚ)
deriving DecidableEq

/-- The image's tag map, keyed by tag code. -/
def Tags := List (Nat × TagV)

/-- `image.value(tag)`: the resolved value, `none` if absent. -/
def value (tags : Tags) (c : Nat) : Option TagV :=
  (tags.find? (fun p => p.1 = c)).map (fun p => p.2)

/-- `CogTifImage.origin`, part_000 variant (throws when `ModelTiepoint`
(33922) is absent or its length is not 6; a scalar's `.length` is
`undefined`, which also fails the `=== 6` test). -/
def originA (tags : Tags) : Except String (List ℚ) :=
  match value tags 33922 with
  | some (TagV.arr l) =>
    if l.length = 6 then Except.ok (l.drop 3)
    else Except.error "Tiff image does not have a ModelTiepoint"
  | _ => Except.error "Tiff image does not have a ModelTiepoint"

/-- `CogTifImage.origin`, part_001 variant (returns null instead of
throwing). -/
def originB (tags : Tags) : Option (List ℚ) :=
  match value tags 33922 with
  | some (TagV.arr l) => if l.length = 6 then some (l.drop 3) else none
  | _ => none

/-- JS element read `v[i]` coerced to a number for the resolution formula.
The claims only exercise proper scale arrays; an out-of-range or
non-array element (JS `undefined`, giving NaN downstream) is modelled
as 0. -/
def elemD : TagV → Nat → ℚ
  | TagV.arr l, i => l.getD i 0
  | TagV.num _, _ => 0

/-- `CogTifImage.resolution`, part_000 variant:
`[scale[0], -scale[1], scale[2]]`, throwing when `ModelPixelScale` (33550)
is absent. -/
def resolutionA (tags : Tags) : Except String (List ℚ) :=
  match value tags 33550 with
  | none => Except.error "Tiff image does not have a ModelPixelScale"
  | some v => Except.ok [elemD v 0, -(elemD v 1), elemD v 2]

/-- `CogTifImage.resolution`, part_001 variant (null when absent). -/
def resolutionB (tags : Tags) : Option (List ℚ) :=
  match value tags 33550 with
  | none => none
  | some v => some [elemD v 0, -(elemD v 1), elemD v 2]

/-- JS numeric coercion of `size.width` / `size.height` inside the bbox
formula: a missing tag is `null`, which multiplies as 0; a 1-element array
coerces to its element. A longer array (NaN in JS) is modelled as 0 and is
exercised by no claim. -/
def coerceNum : Option TagV → ℚ
  | none => 0
  | some (TagV.num q) => q
  | some (TagV.arr [q]) => q
  | some (TagV.arr _) => 0

/-- The shared bbox arithmetic of both variants (part_000 lines 60-76,
part_001 lines 52-68): `x2 = x1 + res[0]*width`, `y2 = y1 + res[1]*height`,
result `[min x, min y, max x, max y]`. -/
def bboxOf (o r : List ℚ) (w h : ℚ) : List ℚ :=
  let x1 := o.getD 0 0
  let y1 := o.getD 1 0
  let x2 := x1 + r.getD 0 0 * w
  let y2 := y1 + r.getD 1 0 * h
  [min x1 x2, min y1 y2, max x1 x2, max y1 y2]

/-- `CogTifImage.bbox`, part_000 variant: `origin` and `resolution` throw
on their missing tags (the null guard after them is dead code there). -/
def bboxA (tags : Tags) : Except String (List ℚ) :=
  match originA tags with
  | Except.error e => Except.error e
  | Except.ok o =>
    match resolutionA tags with
    | Except.error e => Except.error e
    | Except.ok r =>
      Except.ok
        (bboxOf o r (coerceNum (value tags 256)) (coerceNum (value tags 257)))

/-- `CogTifImage.bbox`, part_001 variant: null when `origin` or
`resolution` is null (`size` is an object, never null). -/
def bboxB (tags : Tags) : Option (List ℚ) :=
  match originB tags, resolutionB tags with
  | some o, some r =>
    some (bboxOf o r (coerceNum (value tags 256)) (coerceNum (value tags 257)))
  | _, _ => none

/-- The bbox shape claim C9 asserts, over both image variants: the bbox is
`[min x1 x2, min y1 y2, max x1 x2, max y1 y2]` and therefore contains both
`(x1, y1)` (the origin) and `(x2, y2)` (origin plus resolution times
size). -/
def BboxSpec (tags : Tags) (x1 y1 x2 y2 : ℚ) : Prop :=
  bboxA tags = Except.ok [min x1 x2, min y1 y2, max x1 x2, max y1 y2] ∧
  bboxB tags = some [min x1 x2, min y1 y2, max x1 x2, max y1 y2] ∧
  min x1 x2 ≤ x1 ∧ x1 ≤ max x1 x2 ∧ min y1 y2 ≤ y1 ∧ y1 ≤ max y1 y2 ∧
  min x1 x2 ≤ x2 ∧ x2 ≤ max x1 x2 ∧ min y1 y2 ≤ y2 ∧ y2 ≤ max y1 y2

/-- The value `compression` evaluates to in JS: a media-type string, the
explicit `null` of the guard, or the `undefined` of a table miss. -/
inductive CompRes where
  | str (s : String)
  | jsnull
  | jsundef
deriving DecidableEq

/-- Modelled from the spec: `TiffCompression` (spec section 6 table) keyed
by the rational tag value. -/
def TiffCompression (q : ℚ) : Option String :=
  if q = 1 then some "none"
  else if q = 5 then some "image/x-lzw"
  else if q = 6 then some "image/jpeg"
  else if q = 7 then some "image/jpeg"
  else if q = 8 then some "image/deflate"
  else if q = 34712 then some "image/jp2"
  else if q = 50001 then some "image/webp"
  else none

/-- `CogTifImage.compression` (identical in part_000 lines 81-87 and
part_001 lines 70-76): explicit `null` when the tag is absent or not a
number, otherwise the raw table lookup — `undefined`, not `null`, on an
unknown code. -/
def compressionAcc (tags : Tags) : CompRes :=
  match value tags 259 with
  | some (TagV.num q) =>
    match TiffCompression q with
    | some s => CompRes.str s
    | none => CompRes.jsundef
  | _ => CompRes.jsnull

end CogImg

namespace CogEx

open Cog

/-- Scenario S6 image: `W=600, L=400, tw=tl=256` (so `nx=3, ny=2`),
Compression 1, six tile offsets and byte counts, fully parsed (eager). -/
def s6image : Image :=
  [(256, TagVal.eager (TagData.scalar 600)),
   (257, TagVal.eager (TagData.scalar 400)),
   (322, TagVal.eager (TagData.scalar 256)),
   (323, TagVal.eager (TagData.scalar 256)),
   (259, TagVal.eager (TagData.scalar 1)),
   (324, TagVal.eager (TagData.arr [1000, 2000, 3000, 4000, 5000, 6000])),
   (325, TagVal.eager (TagData.arr [10, 20, 30, 40, 50, 60]))]

/-- Facade state holding the S6 image as overview 0. -/
def s6state : LayerState :=
  { version := 42, isLittleEndian := true, images := [s6image] }

/-- Scenario S5 image: tiled 512 x 512 with 256 x 256 tiles, webp
compression, `TileOffsets` still stored as the lazy closure over
`(offset 200, type 4, count 4)`, `TileByteCounts` eager. -/
def s5image : Image :=
  [(256, TagVal.eager (TagData.scalar 512)),
   (257, TagVal.eager (TagData.scalar 512)),
   (322, TagVal.eager (TagData.scalar 256)),
   (323, TagVal.eager (TagData.scalar 256)),
   (259, TagVal.eager (TagData.scalar 50001)),
   (324, TagVal.lazy 200 4 4),
   (325, TagVal.eager (TagData.arr [10, 20, 30, 40]))]

/-- Facade state holding the S5 image as overview 0. -/
def s5state : LayerState :=
  { version := 42, isLittleEndian := true, images := [s5image] }

/-- The ten bytes of scenario S1: little-endian mark, version 42, first IFD
offset 8, tag count 0 — and nothing after byte 9. -/
def s1src : Source :=
  { data := [0x49, 0x49, 0x2A, 0, 8, 0, 0, 0, 0, 0],
    residentAt := fun off => off < 10,
    resident := fun off len => off + len ≤ 10 }

/-- The S1 bytes padded with the four zero bytes of a next-IFD offset, the
smallest complete file with one empty IFD. -/
def s1srcPadded : Source :=
  { data := [0x49, 0x49, 0x2A, 0, 8, 0, 0, 0, 0, 0, 0, 0, 0, 0],
    residentAt := fun off => off < 14,
    resident := fun off len => off + len ≤ 14 }

/-- A file whose single IFD holds two entries with the same code 256
(ImageWidth), type 3, count 1: first value 256, second value 300. -/
def dupSrc : Source :=
  { data := [0x49, 0x49, 0x2A, 0, 8, 0, 0, 0,
             2, 0,
             0, 1, 3, 0, 1, 0, 0, 0, 0, 1, 0, 0,
             0, 1, 3, 0, 1, 0, 0, 0, 0x2C, 1, 0, 0,
             0, 0, 0, 0],
    residentAt := fun off => off < 38,
    resident := fun off len => off + len ≤ 38 }

/-- A file whose single IFD exercises all three `readIfd` branches:
an inline short (code 256, value 600), an out-of-line resident long array
(code 325, two values at offset 50), and an out-of-line long array at
offset 200 beyond the resident data (code 324), which must be stored
lazily. -/
def mixSrc : Source :=
  { data := [0x49, 0x49, 0x2A, 0, 8, 0, 0, 0,
             3, 0,
             0, 1, 3, 0, 1, 0, 0, 0, 0x58, 2, 0, 0,
             0x45, 1, 4, 0, 2, 0, 0, 0, 50, 0, 0, 0,
             0x44, 1, 4, 0, 4, 0, 0, 0, 0xC8, 0, 0, 0,
             0, 0, 0, 0,
             10, 0, 0, 0, 20, 0, 0, 0],
    residentAt := fun off => off < 58,
    resident := fun off len => off + len ≤ 58 }

end CogEx

/-- Claim C1. The claim states `getTileRaw(x, y, z)` reads the payload at the
row-major index `idx = y * nx + x` with row stride `nx = ceil(W / tw)`. The
code instead uses `nyTiles = ceil(ImageLength / TileLength)` as the row
stride. On the S6 image (`nx = 3`, `ny = 2`) the call `getTileRaw(2, 1, 0)`
computes `idx = 1 * 2 + 2 = 4` and reads `TileOffsets[4] = 5000` with
length `TileByteCounts[4] = 50`, not the claimed
`TileOffsets[1 * 3 + 2] = TileOffsets[5] = 6000` with length 60. -/
theorem c1_tile_index_row_stride_bug :
    Cog.getTileRaw CogEx.s6state 2 1 0 =
      Except.ok { mimeType := some "none", tileIdx := some 4,
                  tileOffset := some 5000, tileCount := some 50 } ∧
    (some 4 : Option Nat) ≠ some (1 * 3 + 2) := by
  exact ⟨rfl, by decide⟩

/-- Claim C2. The claim states `getTileRaw` fails with `TileOutOfRange` when
`x ∉ [0, nx)`; its named instance is `(x, y) = (nx, 0)`. On the S6 image
(`nx = 3`, `ny = 2`) the call `getTileRaw(3, 0, 0)` does not fail: the only
check is `idx > TileOffsets.length` with `idx = 0 * 2 + 3 = 3 ≤ 6`, so the
code returns the payload at `TileOffsets[3]`. -/
theorem c2_out_of_range_not_detected :
    Cog.getTileRaw CogEx.s6state 3 0 0 =
      Except.ok { mimeType := some "none", tileIdx := some 3,
                  tileOffset := some 4000, tileCount := some 40 } := by
  exact rfl

/-- Claim C3. The claim states `getTileRaw` resolves a lazy `TileOffsets` tag
(one chunk fetch) and caches the resolved array before fetching the tile.
The code never resolves: it indexes the stored closure directly, so on the
S5 state — where `TileOffsets` is the lazy value over
`(offset 200, type 4, count 4)` — `getTileRaw(0, 0, 0)` reads
`TileOffsets[0] = undefined` (the request's offset is `none`) and the tag
stays lazy; no resolving chunk fetch is issued and nothing is cached. -/
theorem c3_lazy_tag_not_resolved :
    Cog.getTag CogEx.s5image 324 = some (Cog.TagVal.lazy 200 4 4) ∧
    Cog.getTileRaw CogEx.s5state 0 0 0 =
      Except.ok { mimeType := some "image/webp", tileIdx := some 0,
                  tileOffset := none, tileCount := some 10 } := by
  exact ⟨rfl, rfl⟩

/-- Claim C5, counterexample. On the ten-byte S1 source the claim asserts
`init()` succeeds with `images == []`. It does not: after reading the empty
IFD's tag count at offset 8, `readIfd` reads the `u32` next-IFD offset at
offset 10, which overruns the ten-byte source, so `init` fails. -/
theorem c5_minimal_header_counterexample :
    Cog.init CogEx.s1src = Except.error "read out of range" := by
  exact rfl

/-- Claim C5, amended. On the ten-byte S1 source `init()` fails (the next-IFD
offset at offset 10 lies past the end of the data); on those bytes padded
with a four-byte zero next-IFD offset, `init()` succeeds, the version is 42,
and `images` holds exactly one image with no tags (not the empty array). -/
theorem c5_minimal_header_amended :
    Cog.init CogEx.s1src = Except.error "read out of range" ∧
    Cog.init CogEx.s1srcPadded =
      Except.ok { version := 42, isLittleEndian := true, images := [[]] } := by
  exact ⟨rfl, rfl⟩

/-- Claim C6, counterexample. The claim states a duplicated tag code keeps the
first occurrence. On `dupSrc`, whose IFD holds code 256 twice with values
256 then 300, the parsed image stores 300 — the later assignment
`image[tiffTag] = value` overwrote the first. -/
theorem c6_duplicate_tag_counterexample :
    (Cog.init CogEx.dupSrc).map
        (fun st => st.images.map (fun img => Cog.getTag img 256)) =
      Except.ok [some (Cog.TagVal.eager (Cog.TagData.scalar 300))] ∧
    Cog.TagData.scalar 300 ≠ Cog.TagData.scalar 256 := by
  exact ⟨rfl, by decide⟩

/-- Anything in the image after a JS property write is the written pair or
was already present. -/
theorem mem_setTag {img : Cog.Image} {c : Nat} {v : Cog.TagVal}
    {p : Nat × Cog.TagVal} (h : p ∈ Cog.setTag img c v) :
    p = (c, v) ∨ p ∈ img := by
  unfold Cog.setTag at h
  rcases List.mem_cons.mp h with h1 | h1
  · exact Or.inl h1
  · exact Or.inr (List.mem_of_mem_filter h1)

/-- Anything in the image after folding one loop entry is that entry's
pair or was already present. -/
theorem mem_setTagOpt {img : Cog.Image} {e : Option (Nat × Cog.TagVal)}
    {p : Nat × Cog.TagVal} (h : p ∈ Cog.setTagOpt img e) :
    p ∈ img ∨ e = some p := by
  match e with
  | none => exact Or.inl h
  | some (c, v) =>
    rcases mem_setTag h with h1 | h1
    · exact Or.inr (by rw [h1])
    · exact Or.inl h1

/-- Anything in the image folded from the loop's entries came from one of
those entries or from the initial image. -/
theorem mem_foldl_setTagOpt (es : List (Option (Nat × Cog.TagVal))) :
    ∀ img p, p ∈ es.foldl Cog.setTagOpt img → p ∈ img ∨ some p ∈ es := by
  induction es with
  | nil => intro img p h; exact Or.inl h
  | cons e t ih =>
    intro img p h
    rcases ih (Cog.setTagOpt img e) p h with h1 | h1
    · rcases mem_setTagOpt h1 with h2 | h2
      · exact Or.inl h2
      · exact Or.inr (by rw [← h2]; exact List.mem_cons_self _ _)
    · exact Or.inr (List.mem_cons_of_mem e h1)

/-- Every entry in a successful run of the tag loop was produced by the
iteration at its index. -/
theorem parseEntries_mem (s : Cog.Source) (offset : Nat) :
    ∀ n es, Cog.parseEntries s offset n = Except.ok es →
      ∀ e ∈ es, ∃ i, i < n ∧ Cog.parseEntry s offset i = Except.ok e := by
  intro n
  induction n with
  | zero =>
    intro es h e he
    unfold Cog.parseEntries at h
    cases h
    cases he
  | succ n ih =>
    intro es h e he
    unfold Cog.parseEntries at h
    split at h
    · cases h
    next es2 hes2 =>
      split at h
      · cases h
      next e2 he2 =>
        cases h
        rcases List.mem_append.mp he with hm | hm
        · obtain ⟨i, hi, hp⟩ := ih es2 hes2 e hm
          exact ⟨i, Nat.lt_succ_of_lt hi, hp⟩
        · rcases List.mem_singleton.mp hm with rfl
          exact ⟨n, Nat.lt_succ_self n, he2⟩

/-- A successful loop iteration that stores `(c, v)` stores it under the
eager/lazy discipline of claim C4. -/
theorem parseEntry_stored {s : Cog.Source} {offset i c : Nat}
    {v : Cog.TagVal}
    (h : Cog.parseEntry s offset i = Except.ok (some (c, v))) :
    Cog.entryStored s offset i c v := by
  unfold Cog.parseEntry at h
  split at h
  · cases h
  next tagCode hcode =>
    split at h
    case isFalse => cases h
    next hknown =>
      split at h
      · cases h
      next tagType htype =>
        split at h
        · cases h
        next typeSize hsize =>
          split at h
          · cases h
          next count hcount =>
            split at h
            next hinline =>
              split at h
              · cases h
              next d hread =>
                obtain ⟨rfl, rfl⟩ : tagCode = c ∧ Cog.TagVal.eager d = v := by
                  cases h; exact ⟨rfl, rfl⟩
                exact ⟨tagType, typeSize, count, hcode, hknown, htype, hsize,
                  hcount, Or.inl ⟨hinline, d, rfl⟩⟩
            next hbig =>
              split at h
              · cases h
              next voff hvoff =>
                split at h
                next hres =>
                  split at h
                  · cases h
                  next d hread =>
                    obtain ⟨rfl, rfl⟩ : tagCode = c ∧ Cog.TagVal.eager d = v := by
                      cases h; exact ⟨rfl, rfl⟩
                    exact ⟨tagType, typeSize, count, hcode, hknown, htype,
                      hsize, hcount,
                      Or.inr ⟨Nat.lt_of_not_le hbig, voff, hvoff,
                        Or.inl ⟨hres, d, rfl⟩⟩⟩
                next hres =>
                  obtain ⟨rfl, rfl⟩ :
                      tagCode = c ∧ Cog.TagVal.lazy voff tagType count = v := by
                    cases h; exact ⟨rfl, rfl⟩
                  exact ⟨tagType, typeSize, count, hcode, hknown, htype,
                    hsize, hcount,
                    Or.inr ⟨Nat.lt_of_not_le hbig, voff, hvoff,
                      Or.inr ⟨Bool.of_not_eq_true hres, rfl⟩⟩⟩

/-- Claim C4. Every tag stored by a successfully parsed IFD was produced by
the loop iteration at its entry index, and is eager iff its value fits the
4 inline bytes (`count * type_size ≤ 4`) or `has_bytes` held for its value
range at parse time; otherwise it is the lazy value carrying exactly
`(value_offset, type, count)` — see `Cog.entryStored`. No operation of the
embedded `CogLayer` mutates a parsed image afterwards, so in particular no
stored tag ever becomes lazy again. -/
theorem c4_eager_lazy_invariant (s : Cog.Source) (offset : Nat)
    (r : Cog.Image × Nat) (h : Cog.readIfd s offset = Except.ok r)
    (c : Nat) (v : Cog.TagVal) (hmem : (c, v) ∈ r.1) :
    ∃ tagCount i, Cog.uint16 s offset = Except.ok tagCount ∧ i < tagCount ∧
      Cog.parseEntry s offset i = Except.ok (some (c, v)) ∧
      Cog.entryStored s offset i c v := by
  unfold Cog.readIfd at h
  split at h
  · cases h
  next tagCount hcnt =>
    split at h
    · cases h
    next es hes =>
      split at h
      · cases h
      next nextOffset hnext =>
        cases h
        rcases mem_foldl_setTagOpt es [] (c, v) hmem with h1 | h1
        · cases h1
        · obtain ⟨i, hi, hp⟩ := parseEntries_mem s offset tagCount es hes _ h1
          exact ⟨tagCount, i, hcnt, hi, hp, parseEntry_stored hp⟩

/-- Claim C4, witness. On `mixSrc` the tag 324 (TileOffsets, out-of-line and
not resident) is stored lazily; the theorem applies to it. -/
theorem c4_eager_lazy_invariant_witness :
    ∃ tagCount i, Cog.uint16 CogEx.mixSrc 8 = Except.ok tagCount ∧
      i < tagCount ∧
      Cog.parseEntry CogEx.mixSrc 8 i =
        Except.ok (some (324, Cog.TagVal.lazy 200 4 4)) ∧
      Cog.entryStored CogEx.mixSrc 8 i 324 (Cog.TagVal.lazy 200 4 4) :=
  c4_eager_lazy_invariant CogEx.mixSrc 8
    ([(324, Cog.TagVal.lazy 200 4 4),
      (325, Cog.TagVal.eager (Cog.TagData.arr [10, 20])),
      (256, Cog.TagVal.eager (Cog.TagData.scalar 600))], 0)
    rfl 324 (Cog.TagVal.lazy 200 4 4) (by decide)

/-- Looking up an untouched code is unaffected by filtering out another
code's pairs. -/
theorem find_filter_ne (l : List (Nat × Cog.TagVal)) (c c2 : Nat)
    (h : c2 ≠ c) :
    (l.filter (fun p => p.1 ≠ c2)).find? (fun p => p.1 = c) =
      l.find? (fun p => p.1 = c) := by
  induction l with
  | nil => rfl
  | cons p t ih =>
    by_cases hp : p.1 = c2
    · have hpc : ¬ ((fun q : Nat × Cog.TagVal => decide (q.1 = c)) p = true) := by
        simp only [decide_eq_true_eq]
        exact fun hc => h (hp ▸ hc)
      rw [List.filter_cons_of_neg (by simp [hp]),
        List.find?_cons_of_neg t hpc, ih]
    · rw [List.filter_cons_of_pos (by simp [hp])]
      by_cases hc : p.1 = c
      · rw [List.find?_cons_of_pos _ (by simp [hc]),
          List.find?_cons_of_pos t (by simp [hc])]
      · rw [List.find?_cons_of_neg _ (by simp [hc]),
          List.find?_cons_of_neg t (by simp [hc]), ih]

/-- A JS property write changes exactly the written code's lookup. -/
theorem getTag_setTag (img : Cog.Image) (c c2 : Nat) (v : Cog.TagVal) :
    Cog.getTag (Cog.setTag img c2 v) c =
      if c2 = c then some v else Cog.getTag img c := by
  unfold Cog.getTag Cog.setTag
  by_cases h : c2 = c
  · rw [if_pos h, List.find?_cons_of_pos _ (by simp [h])]
    rfl
  · rw [if_neg h, List.find?_cons_of_neg _ (by simp [h]),
      find_filter_ne img c c2 h]

/-- Folding the loop's entries over an image leaves, for each code, the
last entry with that code, falling back to the initial image. -/
theorem getTag_foldl (es : List (Option (Nat × Cog.TagVal))) :
    ∀ (img : Cog.Image) (c : Nat),
      Cog.getTag (es.foldl Cog.setTagOpt img) c =
        match Cog.lastVal es c with
        | some v => some v
        | none => Cog.getTag img c := by
  induction es with
  | nil => intro img c; simp [Cog.lastVal]
  | cons e t ih =>
    intro img c
    show Cog.getTag (t.foldl Cog.setTagOpt (Cog.setTagOpt img e)) c = _
    rw [ih]
    cases hl : Cog.lastVal t c with
    | some v => simp [Cog.lastVal, hl]
    | none =>
      cases e with
      | none => simp [Cog.lastVal, hl, Cog.setTagOpt, Cog.entryVal]
      | some p =>
        obtain ⟨c2, v⟩ := p
        by_cases hc : c2 = c
        · simp [Cog.lastVal, hl, Cog.entryVal, Cog.setTagOpt,
            getTag_setTag, hc]
        · simp [Cog.lastVal, hl, Cog.entryVal, Cog.setTagOpt,
            getTag_setTag, hc]

/-- Claim C6, amended. A tag code appearing in several entries keeps the
value decoded from the *last* known occurrence: for every successfully
parsed IFD, the stored value at each code is `lastVal` of the loop's
entry list — the later `image[tiffTag] = value` assignment replaces the
earlier one. -/
theorem c6_duplicate_tag_last_wins (s : Cog.Source) (offset tagCount : Nat)
    (es : List (Option (Nat × Cog.TagVal))) (r : Cog.Image × Nat)
    (h1 : Cog.uint16 s offset = Except.ok tagCount)
    (h2 : Cog.parseEntries s offset tagCount = Except.ok es)
    (h3 : Cog.readIfd s offset = Except.ok r) (c : Nat) :
    Cog.getTag r.1 c = Cog.lastVal es c := by
  unfold Cog.readIfd at h3
  split at h3
  · cases h3
  next tagCount2 hcnt =>
    rw [h1] at hcnt
    injection hcnt with hcnt2
    subst hcnt2
    split at h3
    · cases h3
    next es2 hes2 =>
      rw [h2] at hes2
      injection hes2 with hes3
      subst hes3
      split at h3
      · cases h3
      next nextOffset hnext =>
        cases h3
        rw [getTag_foldl es [] c]
        cases hl : Cog.lastVal es c with
        | some v => rfl
        | none => rfl

/-- Claim C6, amended, witness. On `dupSrc` (code 256 twice, values 256 then
300) the parsed image stores for code 256 exactly the last entry's value,
300. -/
theorem c6_duplicate_tag_last_wins_witness :
    Cog.getTag [(256, Cog.TagVal.eager (Cog.TagData.scalar 300))] 256 =
      Cog.lastVal
        [some (256, Cog.TagVal.eager (Cog.TagData.scalar 256)),
         some (256, Cog.TagVal.eager (Cog.TagData.scalar 300))] 256 :=
  c6_duplicate_tag_last_wins CogEx.dupSrc 8 2
    [some (256, Cog.TagVal.eager (Cog.TagData.scalar 256)),
     some (256, Cog.TagVal.eager (Cog.TagData.scalar 300))]
    ([(256, Cog.TagVal.eager (Cog.TagData.scalar 300))], 0)
    rfl rfl rfl 256

/-- Claim C7, counterexample. The claim states *the* origin accessor fails
with `MissingTag(ModelTiepoint)` when the tag's length is not 6. On a
length-5 tiepoint the part_001 variant does not fail — it returns null
(a normal return) — while the part_000 variant throws; the claim is false
for the part_001 accessor. -/
theorem c7_origin_counterexample :
    CogImg.originB [(33922, CogImg.TagV.arr [1, 2, 3, 4, 5])] = none ∧
    CogImg.originA [(33922, CogImg.TagV.arr [1, 2, 3, 4, 5])] =
      Except.error "Tiff image does not have a ModelTiepoint" := by
  exact ⟨rfl, rfl⟩

/-- Claim C7, amended. Both variants return `ModelTiepoint[3..6]` when the
tag holds an array of length exactly 6. When the tag is absent, holds a
non-array, or an array of another length, the part_000 (facade-linked)
variant throws the MissingTag error, while the part_001 (standalone)
variant returns null without failing. -/
theorem c7_origin_amended (tags : CogImg.Tags) :
    (∀ l, CogImg.value tags 33922 = some (CogImg.TagV.arr l) →
        l.length = 6 →
        CogImg.originA tags = Except.ok (l.drop 3) ∧
        CogImg.originB tags = some (l.drop 3)) ∧
    (∀ l, CogImg.value tags 33922 = some (CogImg.TagV.arr l) →
        l.length ≠ 6 →
        CogImg.originA tags =
          Except.error "Tiff image does not have a ModelTiepoint" ∧
        CogImg.originB tags = none) ∧
    (∀ q, CogImg.value tags 33922 = some (CogImg.TagV.num q) →
        CogImg.originA tags =
          Except.error "Tiff image does not have a ModelTiepoint" ∧
        CogImg.originB tags = none) ∧
    (CogImg.value tags 33922 = none →
        CogImg.originA tags =
          Except.error "Tiff image does not have a ModelTiepoint" ∧
        CogImg.originB tags = none) := by
  refine ⟨?_, ?_, ?_, ?_⟩
  · intro l hv hl
    constructor
    · unfold CogImg.originA; rw [hv]; simp [hl]
    · unfold CogImg.originB; rw [hv]; simp [hl]
  · intro l hv hl
    constructor
    · unfold CogImg.originA; rw [hv]; simp [hl]
    · unfold CogImg.originB; rw [hv]; simp [hl]
  · intro q hv
    constructor
    · unfold CogImg.originA; rw [hv]
    · unfold CogImg.originB; rw [hv]
  · intro hv
    constructor
    · unfold CogImg.originA; rw [hv]
    · unfold CogImg.originB; rw [hv]

/-- Claim C7, amended, witness. On a length-6 tiepoint both variants return
elements 3..5. -/
theorem c7_origin_amended_witness :
    CogImg.originA [(33922, CogImg.TagV.arr [0, 0, 0, 7, 8, 9])] =
      Except.ok ([(0 : ℚ), 0, 0, 7, 8, 9].drop 3) ∧
    CogImg.originB [(33922, CogImg.TagV.arr [0, 0, 0, 7, 8, 9])] =
      some ([(0 : ℚ), 0, 0, 7, 8, 9].drop 3) :=
  (c7_origin_amended [(33922, CogImg.TagV.arr [0, 0, 0, 7, 8, 9])]).1
    [0, 0, 0, 7, 8, 9] rfl rfl

/-- Claim C8, counterexample. The claim states `compression` returns null
when the code is unknown. On the unknown code 2 the accessor evaluates
`TiffCompression[2]`, which is JS `undefined`, not the `null` the explicit
guard returns. -/
theorem c8_compression_counterexample :
    CogImg.compressionAcc [(259, CogImg.TagV.num 2)] =
      CogImg.CompRes.jsundef ∧
    CogImg.CompRes.jsundef ≠ CogImg.CompRes.jsnull := by
  exact ⟨rfl, by decide⟩

/-- Claim C8, amended. `compression` returns the fixed table's media-type
string when the Compression tag holds a number in the table; it returns
the guard's explicit null when the tag is absent or not a number; and on a
number outside the table it returns the table miss — JS `undefined`, not
null. -/
theorem c8_compression_amended (tags : CogImg.Tags) :
    (CogImg.value tags 259 = none →
        CogImg.compressionAcc tags = CogImg.CompRes.jsnull) ∧
    (∀ l, CogImg.value tags 259 = some (CogImg.TagV.arr l) →
        CogImg.compressionAcc tags = CogImg.CompRes.jsnull) ∧
    (∀ q s, CogImg.value tags 259 = some (CogImg.TagV.num q) →
        CogImg.TiffCompression q = some s →
        CogImg.compressionAcc tags = CogImg.CompRes.str s) ∧
    (∀ q, CogImg.value tags 259 = some (CogImg.TagV.num q) →
        CogImg.TiffCompression q = none →
        CogImg.compressionAcc tags = CogImg.CompRes.jsundef) := by
  refine ⟨?_, ?_, ?_, ?_⟩
  · intro hv; unfold CogImg.compressionAcc; rw [hv]
  · intro l hv; unfold CogImg.compressionAcc; rw [hv]
  · intro q s hv ht; simp [CogImg.compressionAcc, hv, ht]
  · intro q hv ht; simp [CogImg.compressionAcc, hv, ht]

/-- Claim C8, amended, witness. Code 7 maps to "image/jpeg". -/
theorem c8_compression_amended_witness :
    CogImg.compressionAcc [(259, CogImg.TagV.num 7)] =
      CogImg.CompRes.str "image/jpeg" :=
  (c8_compression_amended [(259, CogImg.TagV.num 7)]).2.2.1 7 "image/jpeg"
    rfl rfl

/-- Claim C9. For an image with a length-6 ModelTiepoint, a ModelPixelScale,
an ImageWidth and an ImageLength, both variants compute
`bbox = [min(x1,x2), min(y1,y2), max(x1,x2), max(y1,y2)]` with
`x1, y1 = origin = tiepoint[3..5]`, `x2 = x1 + scale[0]*W`,
`y2 = y1 + (-scale[1])*L`, and that bbox contains both the origin and
origin plus resolution times size (`BboxSpec`). -/
theorem c9_bbox_round_trip (tags : CogImg.Tags)
    (p0 p1 p2 p3 p4 p5 sx sy sz w h : ℚ)
    (ht : CogImg.value tags 33922 =
      some (CogImg.TagV.arr [p0, p1, p2, p3, p4, p5]))
    (hs : CogImg.value tags 33550 = some (CogImg.TagV.arr [sx, sy, sz]))
    (hw : CogImg.value tags 256 = some (CogImg.TagV.num w))
    (hh : CogImg.value tags 257 = some (CogImg.TagV.num h)) :
    CogImg.BboxSpec tags p3 p4 (p3 + sx * w) (p4 + -sy * h) := by
  have hoA : CogImg.originA tags = Except.ok [p3, p4, p5] := by
    unfold CogImg.originA; rw [ht]; rfl
  have hrA : CogImg.resolutionA tags = Except.ok [sx, -sy, sz] := by
    unfold CogImg.resolutionA; rw [hs]; rfl
  have hoB : CogImg.originB tags = some [p3, p4, p5] := by
    unfold CogImg.originB; rw [ht]; rfl
  have hrB : CogImg.resolutionB tags = some [sx, -sy, sz] := by
    unfold CogImg.resolutionB; rw [hs]; rfl
  unfold CogImg.BboxSpec
  refine ⟨?_, ?_, min_le_left _ _, le_max_left _ _, min_le_left _ _,
    le_max_left _ _, min_le_right _ _, le_max_right _ _, min_le_right _ _,
    le_max_right _ _⟩
  · unfold CogImg.bboxA
    rw [hoA, hrA, hw, hh]
    rfl
  · unfold CogImg.bboxB
    rw [hoB, hrB, hw, hh]
    rfl

/-- Claim C9, witness. Concrete image: origin (10, 20), scale (2, 3), size
100 x 50, so `x2 = 210`, `y2 = -130`. -/
theorem c9_bbox_round_trip_witness :
    CogImg.BboxSpec
      [(33922, CogImg.TagV.arr [0, 0, 0, 10, 20, 0]),
       (33550, CogImg.TagV.arr [2, 3, 1]),
       (256, CogImg.TagV.num 100), (257, CogImg.TagV.num 50)]
      10 20 (10 + 2 * 100) (20 + -3 * 50) :=
  c9_bbox_round_trip _ 0 0 0 10 20 0 2 3 1 100 50 rfl rfl rfl rfl

/-- Claim C10. On any tag map with a length-6 ModelTiepoint, a
ModelPixelScale, an ImageWidth and an ImageLength, the two `CogTifImage`
variants agree: the part_000 accessors' successful values (their `Except`
viewed as an `Option`) equal the part_001 accessors' values, for origin,
resolution and bbox. -/
theorem c10_variant_equivalence (tags : CogImg.Tags)
    (p0 p1 p2 p3 p4 p5 sx sy sz w h : ℚ)
    (ht : CogImg.value tags 33922 =
      some (CogImg.TagV.arr [p0, p1, p2, p3, p4, p5]))
    (hs : CogImg.value tags 33550 = some (CogImg.TagV.arr [sx, sy, sz]))
    (_hw : CogImg.value tags 256 = some (CogImg.TagV.num w))
    (_hh : CogImg.value tags 257 = some (CogImg.TagV.num h)) :
    (CogImg.originA tags).toOption = CogImg.originB tags ∧
    (CogImg.resolutionA tags).toOption = CogImg.resolutionB tags ∧
    (CogImg.bboxA tags).toOption = CogImg.bboxB tags := by
  have hoA : CogImg.originA tags = Except.ok [p3, p4, p5] := by
    unfold CogImg.originA; rw [ht]; rfl
  have hrA : CogImg.resolutionA tags = Except.ok [sx, -sy, sz] := by
    unfold CogImg.resolutionA; rw [hs]; rfl
  have hoB : CogImg.originB tags = some [p3, p4, p5] := by
    unfold CogImg.originB; rw [ht]; rfl
  have hrB : CogImg.resolutionB tags = some [sx, -sy, sz] := by
    unfold CogImg.resolutionB; rw [hs]; rfl
  refine ⟨?_, ?_, ?_⟩
  · rw [hoA, hoB]; rfl
  · rw [hrA, hrB]; rfl
  · unfold CogImg.bboxA CogImg.bboxB
    rw [hoA, hrA, hoB, hrB]
    rfl

/-- Claim C10, witness. The equivalence at a concrete fully tagged image. -/
theorem c10_variant_equivalence_witness :
    (CogImg.originA
          [(33922, CogImg.TagV.arr [1, 2, 3, 4, 5, 6]),
           (33550, CogImg.TagV.arr [7, 8, 9]),
           (256, CogImg.TagV.num 640), (257, CogImg.TagV.num 480)]).toOption =
      CogImg.originB
          [(33922, CogImg.TagV.arr [1, 2, 3, 4, 5, 6]),
           (33550, CogImg.TagV.arr [7, 8, 9]),
           (256, CogImg.TagV.num 640), (257, CogImg.TagV.num 480)] ∧
    (CogImg.resolutionA
          [(33922, CogImg.TagV.arr [1, 2, 3, 4, 5, 6]),
           (33550, CogImg.TagV.arr [7, 8, 9]),
           (256, CogImg.TagV.num 640), (257, CogImg.TagV.num 480)]).toOption =
      CogImg.resolutionB
          [(33922, CogImg.TagV.arr [1, 2, 3, 4, 5, 6]),
           (33550, CogImg.TagV.arr [7, 8, 9]),
           (256, CogImg.TagV.num 640), (257, CogImg.TagV.num 480)] ∧
    (CogImg.bboxA
          [(33922, CogImg.TagV.arr [1, 2, 3, 4, 5, 6]),
           (33550, CogImg.TagV.arr [7, 8, 9]),
           (256, CogImg.TagV.num 640), (257, CogImg.TagV.num 480)]).toOption =
      CogImg.bboxB
          [(33922, CogImg.TagV.arr [1, 2, 3, 4, 5, 6]),
           (33550, CogImg.TagV.arr [7, 8, 9]),
           (256, CogImg.TagV.num 640), (257, CogImg.TagV.num 480)] :=
  c10_variant_equivalence _ 1 2 3 4 5 6 7 8 9 640 480 rfl rfl rfl rfl
